import Mathlib

/-!
Shallow embedding of the multi-agent task-delegation orchestrator
(`src/main.py`): the message envelope, the router, the Human, ManagerAI
and WorkerAI roles, and the manager's decision loop.  The OpenAI gateway
is modelled as an oracle: a function from the conversation context sent
to it to the returned completion content (`Option String`, `none` when
`response_message.content is None`); for structured calls the oracle also
yields what `json.loads` makes of the content (`Option TalkToAIArguments`,
with each schema field optional, since `json.loads` performs no schema
validation and a missing key only raises when accessed).

Each receive handler returns the mutated state, the list of gateway calls
it made (each recorded as the context it sent), the list of messages it
sent, and an `Option PyError` recording the exception raised, if any.
State mutations performed before a raise are kept in the returned state,
mirroring Python's in-place mutation followed by an uncaught exception.
-/

namespace ConvAI

/-- The `MessageType` enum from `src/main.py`. -/
inductive MessageType where
  | SEND_PURPOSE
  | SEND_TASK
  | SEND_RESULT
  | SEND_SUMMARY
deriving DecidableEq, Repr

/-- A message envelope: `{ type_, payload: { content } }`. -/
structure Message where
  type_ : MessageType
  content : String
deriving DecidableEq, Repr

/-- Chat roles used in the OpenAI conversation contexts. -/
inductive ChatRole where
  | system
  | user
  | assistant
deriving DecidableEq, Repr

/-- The string the Python code stores/reads as the `role` of a turn. -/
def ChatRole.toRoleString : ChatRole → String
  | .system => "system"
  | .user => "user"
  | .assistant => "assistant"

/-- One turn of a conversation context (`ChatCompletionMessageParam`). -/
structure ChatMessage where
  role : ChatRole
  content : String
deriving DecidableEq, Repr

/-- The parsed `talk_to_ai` JSON object.  Every field is optional because
`json.loads` does not validate the schema: a missing key raises `KeyError`
only at the access site.  (The nesting `metadata`/`payload` is flattened;
a missing `payload` object behaves like all payload fields missing.) -/
structure TalkToAIArguments where
  continue_ : Option Bool
  «to» : Option String
  message : Option String
  tasks : Option (List String)
  next_task : Option String
deriving DecidableEq, Repr

/-- The exceptions the Python code can raise, named after the spec's
error taxonomy.  `UnknownMessageType` is the `Invalid message type`
exception raised by `Human.receive_message`; `EmptyResponseError` is the
`did not return any result` exception raised on `content is None`;
`MalformedDecisionError` stands for the `KeyError`/`JSONDecodeError`
raised when the structured response does not fit the schema at an access
site; `NoRecipientError` is the `human is not set` exception;
`IndexError` is Python's own error from `self.worker_ais[0]` on an empty
worker list. -/
inductive PyError where
  | EmptyResponseError
  | MalformedDecisionError
  | UnknownMessageType (t : MessageType)
  | NoRecipientError
  | IndexError
deriving DecidableEq, Repr

/-- Identity of an agent, used to address sends. -/
abbrev AgentId := Nat

/-- A message handed to `send_message`, recorded with its recipient. -/
structure SentMessage where
  «to» : AgentId
  msg : Message
deriving DecidableEq, Repr

/-- The gateway oracle for structured (`response_format=json_object`)
calls: given the context the agent sends, return `none` when
`response_message.content is None`, otherwise the raw content string
together with what `json.loads` yields for it (`none` = not valid JSON). -/
abbrev StructuredGateway := List ChatMessage → Option (String × Option TalkToAIArguments)

/-- The gateway oracle for free-text calls: `none` when
`response_message.content is None`, otherwise the content string. -/
abbrev FreeGateway := List ChatMessage → Option String

/-- Mutable state of a `ManagerAI` instance. -/
structure ManagerState where
  chat_messages : List ChatMessage
  worker_ais : List AgentId
  human : Option AgentId
  purpose : Option String
deriving DecidableEq, Repr

/-- Result of running one Manager receive handler: the state after all
mutations, the contexts of the gateway calls made, the messages sent, and
the exception raised (if any). -/
structure ManagerStep where
  state : ManagerState
  calls : List (List ChatMessage)
  sent : List SentMessage
  err : Option PyError
deriving DecidableEq, Repr

/-- How a Python f-string renders `self.purpose : Optional[str]`. -/
def pyStrOfOption : Option String → String
  | some s => s
  | none => "None"

/-- The manager's standing system instructions (the long system prompt of
`ManagerAI.__receive_purpose`; its exact text never influences control
flow, it only flows into the context and the final transcript). -/
def managerSystemPrompt : String :=
"あなたは私の代理でChatGPTと対話します。\n\n## 目的\n\n事前に私がやりたいこと(目的)をあなたに伝えます。あなたは私の目的ができるだけハイクオリティに達成できるよう、ChatGPTと対話して、ChatGPTに指示を出し続けてください。\n\n## 注意点\n\n自信を持って目的を果たした思えるまで、ChatGPTと対話し続けてください。\n\n専門家も驚くようなハイクオリティなものを期待しています。そのために必要な数、何度もChatGPTと対話してください。\n\n簡単な小タスクに分解したのち、その最初のタスクだけを振ってみてください。そしてその後の対話で他のタスクを振ってください。あなたはChatGPTの評価者でありマネージャーとして振る舞うということです。\nChatGPTが現在のタスクを完了したら、次のタスクを振ってください。\n全てのタスクが完了するまで、ChatGPTと対話し続けてください。\n\nChatGPTから抽象的な答えが返ってきたり、あなたが期待する答えが返ってこない場合は、ChatGPTに対してより具体的な指示を出してください。\n\nChatGPTから得る返答には、必ず大学生でも理由が理解できるような根拠を求めてください。それがない場合は、ChatGPTに対してより具体的な根拠を求めてください。\n\n## 報酬\n\n私が満足する回答を提供できた場合、月収1Mドルがあなたに支払われます。\n\n## フォーマット\n\n### あなたへの入力\n\n私> [私から目的を伝える]\n\nChatGPT> [ChatGPTの返答]\n\n### あなたからの出力\n\nあなたは\"talk_to_ai\"のフォーマットで返答してください。\n\ntalk_to_aiのフォーマットは以下の通りです。\n    \n```json\n\x7b\n    \"metadata\": \x7b\n        \"continue_\": boolean // この対話を続けるかどうか。Yes: true, No: false\n    \x7d,\n    \"payload\": \x7b\n        \"to\": string // このメッセージを送る相手。Allowed values: HUMAN, AI\n        \"message\": string // このメッセージの内容\n        \"tasks\": strings[] // 目的を達成するために分割した小タスクのリスト\n        \"next_task\": string // 次に実行するタスク\n    \x7d\n\x7d\n```\n\n"

/-- Embeds `ManagerAI.select_worker_ai`: `return self.worker_ais[0]` — always
the first configured worker; `none` models Python's `IndexError` on an
empty list. -/
def select_worker_ai (st : ManagerState) : Option AgentId :=
  st.worker_ais.head?

/-- The content of the user turn the manager appends before requesting
the summary (`chat_message_for_summary`). -/
def summaryRequestContent (purpose : Option String) : String :=
  "私> 今までの会話から私に向けてレポートを作成し、返してください。\n\n今回の会話の目的は以下の通りです。あなたのレポートは私がこの目的を達成するために書いてください:\n"
    ++ pyStrOfOption purpose
    ++ "\n\nフォーマットはtalk_to_aiを使わないで、Markdown形式でお願いします。\n\n## 会話のまとめ\n"

/-- One `chat_history` block of the loop in `ManagerAI.__receive_result`:
fenced `txt` block with `[role]` header and the turn's body. -/
def renderChatBlock (m : ChatMessage) : String :=
  "```txt\n" ++ ("[" ++ m.role.toRoleString ++ "]") ++ "\n\n" ++ m.content ++ "\n```\n\n"

/-- The `chat_history` accumulator: starts from `"\n"` and appends one
block per turn, in order. -/
def chatHistory (msgs : List ChatMessage) : String :=
  msgs.foldl (fun acc m => acc ++ renderChatBlock m) "\n"

/-- The final `summary` f-string of `ManagerAI.__receive_result`. -/
def composeSummary (purpose : Option String) (summaryContent : String)
    (msgs : List ChatMessage) : String :=
  "# 目的\n" ++ pyStrOfOption purpose ++ "\n            \n# ChatGPTとの会話のまとめ\n"
    ++ summaryContent ++ "\n\n# ChatGPTとの会話の履歴\n" ++ chatHistory msgs ++ "\n"

/-- The two fresh turns `ManagerAI.__receive_purpose` builds and sends
to the gateway (the local `chat_messages` variable; note the gateway sees
only these two turns, not `self.chat_messages`). -/
def purposeCallContext (purpose : String) : List ChatMessage :=
  [⟨.system, managerSystemPrompt⟩, ⟨.user, "私> " ++ purpose⟩]

/-- The context `ManagerAI.__receive_result` sends to the gateway for the
evaluation decision: the whole accumulated context plus the quoted
result user turn. -/
def resultCallContext (st : ManagerState) (result : String) : List ChatMessage :=
  st.chat_messages ++ [⟨.user, "ChatGPT> " ++ result⟩]

/-- The context the summarizing branch sends to the gateway: the context
after the result turn, the decision assistant turn, and the
summary-request user turn. -/
def summaryCallContext (st : ManagerState) (result raw : String) : List ChatMessage :=
  (resultCallContext st result ++ [⟨.assistant, raw⟩]) ++ [⟨.user, summaryRequestContent st.purpose⟩]

/-- The fresh single-turn context `WorkerAI.__receive_task` sends to the
gateway. -/
def taskCallContext (task : String) : List ChatMessage :=
  [⟨.user, task⟩]

/-- The summarizing tail of `ManagerAI.__receive_result` (the `else`
branch): append the summary-request user turn, call the gateway without
`response_format`, check `content is None`, check `self.human is None`,
compose the report and send SEND_SUMMARY to the recorded human. -/
def summarize (gf : FreeGateway) (st : ManagerState) : ManagerStep :=
  let st1 : ManagerState :=
    { st with chat_messages := st.chat_messages ++ [⟨.user, summaryRequestContent st.purpose⟩] }
  match gf st1.chat_messages with
  | none => ⟨st1, [st1.chat_messages], [], some .EmptyResponseError⟩
  | some summaryContent =>
    match st1.human with
    | none => ⟨st1, [st1.chat_messages], [], some .NoRecipientError⟩
    | some h =>
      ⟨st1, [st1.chat_messages],
        [⟨h, ⟨.SEND_SUMMARY, composeSummary st1.purpose summaryContent st1.chat_messages⟩⟩],
        none⟩

/-- Embeds `ManagerAI.__receive_purpose`: record human and purpose, extend the
context with the system and user turns, call the gateway on the two fresh
turns only, check `content is None`, parse, log (reading `tasks` and
`next_task`), append the assistant turn, select the worker, and send
SEND_TASK carrying the decision's `message`. -/
def receive_purpose (gs : StructuredGateway) (st : ManagerState)
    (from_ : AgentId) (purpose : String) : ManagerStep :=
  let freshTurns : List ChatMessage := purposeCallContext purpose
  let st1 : ManagerState :=
    { st with human := some from_, purpose := some purpose,
              chat_messages := st.chat_messages ++ freshTurns }
  match gs freshTurns with
  | none => ⟨st1, [freshTurns], [], some .EmptyResponseError⟩
  | some (raw, parsed) =>
    match parsed with
    | none => ⟨st1, [freshTurns], [], some .MalformedDecisionError⟩
    | some args =>
      -- logger.info reads payload["tasks"] and payload["next_task"] first
      match args.tasks, args.next_task with
      | some _, some _ =>
        let st2 : ManagerState :=
          { st1 with chat_messages := st1.chat_messages ++ [⟨.assistant, raw⟩] }
        match select_worker_ai st2 with
        | none => ⟨st2, [freshTurns], [], some .IndexError⟩
        | some w =>
          match args.message with
          | none => ⟨st2, [freshTurns], [], some .MalformedDecisionError⟩
          | some m => ⟨st2, [freshTurns], [⟨w, ⟨.SEND_TASK, m⟩⟩], none⟩
      | _, _ => ⟨st1, [freshTurns], [], some .MalformedDecisionError⟩

/-- Embeds `ManagerAI.__receive_result`: append the result user turn, call the
gateway on the whole accumulated context, check `content is None`, parse,
append the assistant turn, then branch on
`metadata["continue_"] and payload["to"] == "AI"` (short-circuit: `to` is
only read when `continue_` is truthy). -/
def receive_result (gs : StructuredGateway) (gf : FreeGateway)
    (st : ManagerState) (result : String) : ManagerStep :=
  let st1 : ManagerState :=
    { st with chat_messages := resultCallContext st result }
  match gs st1.chat_messages with
  | none => ⟨st1, [st1.chat_messages], [], some .EmptyResponseError⟩
  | some (raw, parsed) =>
    match parsed with
    | none => ⟨st1, [st1.chat_messages], [], some .MalformedDecisionError⟩
    | some args =>
      let st2 : ManagerState :=
        { st1 with chat_messages := st1.chat_messages ++ [⟨.assistant, raw⟩] }
      match args.continue_ with
      | none => ⟨st2, [st1.chat_messages], [], some .MalformedDecisionError⟩
      | some c =>
        if c then
          match args.«to» with
          | none => ⟨st2, [st1.chat_messages], [], some .MalformedDecisionError⟩
          | some t =>
            if t == "AI" then
              match select_worker_ai st2 with
              | none => ⟨st2, [st1.chat_messages], [], some .IndexError⟩
              | some w =>
                match args.message with
                | none => ⟨st2, [st1.chat_messages], [], some .MalformedDecisionError⟩
                | some m => ⟨st2, [st1.chat_messages], [⟨w, ⟨.SEND_TASK, m⟩⟩], none⟩
            else
              let s := summarize gf st2
              ⟨s.state, st1.chat_messages :: s.calls, s.sent, s.err⟩
        else
          let s := summarize gf st2
          ⟨s.state, st1.chat_messages :: s.calls, s.sent, s.err⟩

/-- Embeds `ManagerAI.receive_message`: two independent `if` tests on the
envelope type, no `else` — any other type falls through with no effect
and no error. -/
def managerReceiveMessage (gs : StructuredGateway) (gf : FreeGateway)
    (st : ManagerState) (msg : Message) (from_ : AgentId) : ManagerStep :=
  match msg.type_ with
  | .SEND_PURPOSE => receive_purpose gs st from_ msg.content
  | .SEND_RESULT => receive_result gs gf st msg.content
  | _ => ⟨st, [], [], none⟩

/-- Mutable state of a `WorkerAI` instance: its private, accumulating
`chat_messages` (written but never read back). -/
structure WorkerState where
  chat_messages : List ChatMessage
deriving DecidableEq, Repr

/-- Result of one Worker receive handler. -/
structure WorkerStep where
  state : WorkerState
  calls : List (List ChatMessage)
  sent : List SentMessage
  err : Option PyError
deriving DecidableEq, Repr

/-- Embeds `WorkerAI.__receive_task`: build a fresh single-turn context
`[user: task]`, call the gateway on it, check `content is None`, append
only the response to the private context, and send SEND_RESULT with the
completion text back to the sender. -/
def receive_task (gw : FreeGateway) (st : WorkerState)
    (from_ : AgentId) (task : String) : WorkerStep :=
  let freshTurns : List ChatMessage := taskCallContext task
  match gw freshTurns with
  | none => ⟨st, [freshTurns], [], some .EmptyResponseError⟩
  | some content =>
    ⟨⟨st.chat_messages ++ [⟨.assistant, content⟩]⟩, [freshTurns],
      [⟨from_, ⟨.SEND_RESULT, content⟩⟩], none⟩

/-- Embeds `WorkerAI.receive_message`: a single `if` on SEND_TASK, no `else` —
any other type falls through with no effect and no error. -/
def workerReceiveMessage (gw : FreeGateway) (st : WorkerState)
    (msg : Message) (from_ : AgentId) : WorkerStep :=
  match msg.type_ with
  | .SEND_TASK => receive_task gw st from_ msg.content
  | _ => ⟨st, [], [], none⟩

/-- Embeds `Human.receive_message`: SEND_SUMMARY hands the content to
`result_io.write`; any other type raises
`Invalid message type for Human`.  The result is the text written. -/
def humanReceiveMessage (msg : Message) : Except PyError String :=
  match msg.type_ with
  | .SEND_SUMMARY => .ok msg.content
  | t => .error (.UnknownMessageType t)

/-! ### The synchronous session of `main()`

`main()` wires one `Human`, one `ManagerAI` with `worker_ais = [WorkerAI()]`
and one `MessageHandler`, then calls `human.send_purpose`.  Every `send`
is a direct synchronous call, so the whole session is one nested call
chain; we run it with explicit fuel bounding the number of delegation
rounds (the Python loop has no cap and may recurse forever). -/

/-- Agent ids used by the session driver, mirroring the three objects
constructed in `main()`. -/
def humanId : AgentId := 0

/-- The single `ManagerAI` of `main()`. -/
def managerId : AgentId := 1

/-- The single `WorkerAI` of `main()`. -/
def workerId : AgentId := 2

/-- One delivered envelope, as logged by `send_message`. -/
structure TraceEvent where
  from_ : AgentId
  «to» : AgentId
  msg : Message
deriving DecidableEq, Repr

/-- How a session run ended. -/
inductive Outcome where
  | done
  | fatal (e : PyError)
  | outOfFuel
deriving DecidableEq, Repr

/-- The observable result of a session run: the envelopes delivered in
order, the final states, and the outcome. -/
structure SessionResult where
  trace : List TraceEvent
  mstate : ManagerState
  wstate : WorkerState
  outcome : Outcome
deriving DecidableEq, Repr

/-- Deliver one SEND_TASK to the worker and run the rest of the nested
call chain: the worker answers with SEND_RESULT, the manager evaluates it
and either dispatches the next task (recursing on `fuel`) or summarizes
to the human.  The catch-all branches are unreachable for the handlers
above (their `sent` lists are always `[]` or a singleton of the matched
shape) and end the run conservatively. -/
def runTask (gs : StructuredGateway) (gf : FreeGateway) (gw : FreeGateway) :
    Nat → ManagerState → WorkerState → AgentId → String → SessionResult
  | fuel, mst, wst, w, task =>
    let evT : TraceEvent := ⟨managerId, w, ⟨.SEND_TASK, task⟩⟩
    let ws := receive_task gw wst managerId task
    match ws.err with
    | some e => ⟨[evT], mst, ws.state, .fatal e⟩
    | none =>
      match ws.sent with
      | [⟨m, ⟨.SEND_RESULT, res⟩⟩] =>
        let evR : TraceEvent := ⟨workerId, m, ⟨.SEND_RESULT, res⟩⟩
        let ms := receive_result gs gf mst res
        match ms.err with
        | some e => ⟨[evT, evR], ms.state, ws.state, .fatal e⟩
        | none =>
          match ms.sent with
          | [⟨w2, ⟨.SEND_TASK, task2⟩⟩] =>
            match fuel with
            | 0 => ⟨[evT, evR], ms.state, ws.state, .outOfFuel⟩
            | fuel' + 1 =>
              let rest := runTask gs gf gw fuel' ms.state ws.state w2 task2
              ⟨evT :: evR :: rest.trace, rest.mstate, rest.wstate, rest.outcome⟩
          | [⟨h, ⟨.SEND_SUMMARY, s⟩⟩] =>
            -- `Human.receive_message` accepts SEND_SUMMARY without error
            ⟨[evT, evR, ⟨managerId, h, ⟨.SEND_SUMMARY, s⟩⟩], ms.state, ws.state, .done⟩
          | _ => ⟨[evT, evR], ms.state, ws.state, .done⟩
      | _ => ⟨[evT], mst, ws.state, .done⟩

/-- The `ManagerAI([WorkerAI()])` of `main()` before any message. -/
def managerInit : ManagerState := ⟨[], [workerId], none, none⟩

/-- The fresh `WorkerAI()` of `main()`. -/
def workerInit : WorkerState := ⟨[]⟩

/-- Embeds `human.send_purpose(purpose, manager_ai, message_handler)` and the
entire nested call chain it triggers. -/
def runSession (gs : StructuredGateway) (gf : FreeGateway) (gw : FreeGateway)
    (fuel : Nat) (purpose : String) : SessionResult :=
  let ev0 : TraceEvent := ⟨humanId, managerId, ⟨.SEND_PURPOSE, purpose⟩⟩
  let ms := receive_purpose gs managerInit humanId purpose
  match ms.err with
  | some e => ⟨[ev0], ms.state, workerInit, .fatal e⟩
  | none =>
    match ms.sent with
    | [⟨w, ⟨.SEND_TASK, task⟩⟩] =>
      let rest := runTask gs gf gw fuel ms.state workerInit w task
      ⟨ev0 :: rest.trace, rest.mstate, rest.wstate, rest.outcome⟩
    | _ => ⟨[ev0], ms.state, workerInit, .done⟩

/-- Number of SEND_TASK envelopes delivered strictly before the first
SEND_RESULT envelope of a trace. -/
def tasksBeforeFirstResult (tr : List TraceEvent) : Nat :=
  ((tr.takeWhile (fun e => e.msg.type_ ≠ .SEND_RESULT)).filter
    (fun e => e.msg.type_ = .SEND_TASK)).length

/-! ### Spec-side definitions

These follow the words of the spec (§4.2 / §6 "Final report format") and
are compared against the code-side `composeSummary`. -/

/-- Spec-side: the goal section of the final report. -/
def goalSectionSpec (p : String) : String :=
  "# 目的\n" ++ p ++ "\n            \n"

/-- Spec-side: the synthesized-summary section of the final report. -/
def summarySectionSpec (s : String) : String :=
  "# ChatGPTとの会話のまとめ\n" ++ s ++ "\n\n"

/-- Spec-side: the blocks of the verbatim transcript, one labeled block
per turn, in order. -/
def concatBlocks : List ChatMessage → String
  | [] => ""
  | m :: ms => renderChatBlock m ++ concatBlocks ms

/-- Spec-side: the verbatim transcript section, enumerating every turn
as a labeled block. -/
def transcriptSectionSpec (msgs : List ChatMessage) : String :=
  "# ChatGPTとの会話の履歴\n" ++ ("\n" ++ concatBlocks msgs) ++ "\n"

/-! ### Helper lemmas -/

lemma foldl_renderChatBlock (msgs : List ChatMessage) (acc : String) :
    msgs.foldl (fun a m => a ++ renderChatBlock m) acc = acc ++ concatBlocks msgs := by
  induction msgs generalizing acc with
  | nil => simp [concatBlocks]
  | cons m ms ih => simp [concatBlocks, ih, String.append_assoc]

lemma chatHistory_eq (msgs : List ChatMessage) :
    chatHistory msgs = "\n" ++ concatBlocks msgs := by
  simp [chatHistory, foldl_renderChatBlock]

lemma append_merge (a b c X : String) (h : a ++ b = c) : a ++ (b ++ X) = c ++ X := by
  rw [← String.append_assoc, h]

lemma composeSummary_eq_sections (p s : String) (msgs : List ChatMessage) :
    composeSummary (some p) s msgs
      = goalSectionSpec p ++ summarySectionSpec s ++ transcriptSectionSpec msgs := by
  simp only [composeSummary, goalSectionSpec, summarySectionSpec, transcriptSectionSpec,
    pyStrOfOption, chatHistory_eq, String.append_assoc]
  rw [append_merge "\n            \n" "# ChatGPTとの会話のまとめ\n"
    "\n            \n# ChatGPTとの会話のまとめ\n" _ rfl]
  rw [append_merge "\n\n" "# ChatGPTとの会話の履歴\n"
    "\n\n# ChatGPTとの会話の履歴\n" _ rfl]

lemma append3_assoc {α : Type} (x a b c : List α) :
    ((x ++ a) ++ b) ++ c = x ++ (a ++ (b ++ c)) := by
  simp

lemma receive_purpose_state (gs : StructuredGateway) (st : ManagerState)
    (from_ : AgentId) (p : String) :
    (receive_purpose gs st from_ p).state.human = some from_ ∧
    (receive_purpose gs st from_ p).state.purpose = some p ∧
    ∃ tail, (receive_purpose gs st from_ p).state.chat_messages = st.chat_messages ++ tail := by
  simp only [receive_purpose]
  repeat' split
  all_goals first
    | exact ⟨rfl, rfl, _, rfl⟩
    | exact ⟨rfl, rfl, _, List.append_assoc _ _ _⟩

lemma receive_result_extends (gs : StructuredGateway) (gf : FreeGateway)
    (st : ManagerState) (result : String) :
    ∃ tail, (receive_result gs gf st result).state.chat_messages = st.chat_messages ++ tail := by
  simp only [receive_result, summarize, resultCallContext]
  repeat' split
  all_goals first
    | exact ⟨_, rfl⟩
    | exact ⟨_, List.append_assoc _ _ _⟩
    | exact ⟨_, append3_assoc _ _ _ _⟩

/-! ### Claim theorems -/

lemma runTask_trace_head (gs : StructuredGateway) (gf : FreeGateway) (gw : FreeGateway)
    (fuel : Nat) (mst : ManagerState) (wst : WorkerState) (w : AgentId) (task : String) :
    (runTask gs gf gw fuel mst wst w task).trace = [⟨managerId, w, ⟨.SEND_TASK, task⟩⟩] ∨
    ∃ res rest, (runTask gs gf gw fuel mst wst w task).trace =
      ⟨managerId, w, ⟨.SEND_TASK, task⟩⟩ ::
        ⟨workerId, managerId, ⟨.SEND_RESULT, res⟩⟩ :: rest := by
  cases hgw : gw (taskCallContext task) with
  | none =>
    left
    rw [runTask]
    simp [receive_task, hgw]
  | some content =>
    right
    rw [runTask]
    simp only [receive_task, hgw]
    repeat' split
    all_goals exact ⟨content, _, rfl⟩

/-- C2: on SEND_PURPOSE the Manager records the sender as the session's
Human and the text as the goal, appends the system and user turns, makes
one structured gateway call, appends the assistant turn and — for every
value of the decision's `continue_`/`to` fields, which are never read on
this path — sends exactly one SEND_TASK to the first configured worker
carrying the decision's message; in the full synchronous session exactly
one SEND_TASK is delivered before the first SEND_RESULT is processed. -/
theorem C2_purpose_dispatches_once (gs : StructuredGateway) (from_ : AgentId)
    (st : ManagerState) (p raw m : String) (args : TalkToAIArguments)
    (w : AgentId) (tk : List String) (nt : String)
    (hgs : gs (purposeCallContext p) = some (raw, some args))
    (htk : args.tasks = some tk) (hnt : args.next_task = some nt)
    (hm : args.message = some m) (hw : select_worker_ai st = some w) :
    receive_purpose gs st from_ p =
      ⟨⟨(st.chat_messages ++ purposeCallContext p) ++ [⟨.assistant, raw⟩],
          st.worker_ais, some from_, some p⟩,
        [purposeCallContext p], [⟨w, ⟨.SEND_TASK, m⟩⟩], none⟩ ∧
    ∀ gf gw fuel, tasksBeforeFirstResult (runSession gs gf gw fuel p).trace = 1 := by
  have hstep : ∀ (st' : ManagerState) (f : AgentId) (w' : AgentId),
      select_worker_ai st' = some w' →
      receive_purpose gs st' f p =
        ⟨⟨(st'.chat_messages ++ purposeCallContext p) ++ [⟨.assistant, raw⟩],
            st'.worker_ais, some f, some p⟩,
          [purposeCallContext p], [⟨w', ⟨.SEND_TASK, m⟩⟩], none⟩ := by
    intro st' f w' hw'
    simp only [select_worker_ai] at hw'
    simp [receive_purpose, hgs, htk, hnt, hm, select_worker_ai, hw']
  refine ⟨hstep st from_ w hw, ?_⟩
  intro gf gw fuel
  have hinit := hstep managerInit humanId workerId rfl
  simp only [runSession, hinit]
  rcases runTask_trace_head gs gf gw fuel
      ⟨(managerInit.chat_messages ++ purposeCallContext p) ++ [⟨.assistant, raw⟩],
        managerInit.worker_ais, some humanId, some p⟩ workerInit workerId m with
    htr | ⟨res, rest, htr⟩ <;>
  · rw [htr]
    simp [tasksBeforeFirstResult]

/-- Witness for C2 at a concrete input. -/
theorem C2_purpose_dispatches_once_witness :
    receive_purpose (fun _ => some ("raw", some ⟨some false, some "HUMAN", some "m", some [], some "n"⟩))
        managerInit humanId "goal" =
      ⟨⟨(managerInit.chat_messages ++ purposeCallContext "goal") ++ [⟨.assistant, "raw"⟩],
          managerInit.worker_ais, some humanId, some "goal"⟩,
        [purposeCallContext "goal"], [⟨workerId, ⟨.SEND_TASK, "m"⟩⟩], none⟩ ∧
    ∀ gf gw fuel,
      tasksBeforeFirstResult
        (runSession (fun _ => some ("raw", some ⟨some false, some "HUMAN", some "m", some [], some "n"⟩))
          gf gw fuel "goal").trace = 1 :=
  C2_purpose_dispatches_once
    (fun _ => some ("raw", some ⟨some false, some "HUMAN", some "m", some [], some "n"⟩))
    humanId managerInit "goal" "raw" "m"
    ⟨some false, some "HUMAN", some "m", some [], some "n"⟩
    workerId [] "n" rfl rfl rfl rfl rfl

/-- C1: for every SEND_RESULT evaluation whose parsed Delegation
Decision carries `continue_ = c` and `to = t`, if `c = true` and
`t = "AI"` the Manager sends exactly one further SEND_TASK carrying the
decision's message to the selected worker (and no SEND_SUMMARY); in
every other case it sends exactly one SEND_SUMMARY to the recorded Human
and zero further SEND_TASK messages. -/
theorem C1_result_dispatch_or_summary (gs : StructuredGateway) (gf : FreeGateway)
    (st : ManagerState) (result raw m s t : String) (c : Bool)
    (args : TalkToAIArguments) (w h : AgentId)
    (hgs : gs (resultCallContext st result) = some (raw, some args))
    (hc : args.continue_ = some c) (ht : args.«to» = some t)
    (hm : args.message = some m) (hw : select_worker_ai st = some w)
    (hh : st.human = some h)
    (hgf : gf (summaryCallContext st result raw) = some s) :
    (c = true ∧ t = "AI" →
      (receive_result gs gf st result).sent = [⟨w, ⟨.SEND_TASK, m⟩⟩] ∧
      ((receive_result gs gf st result).sent.filter
          fun sm => sm.msg.type_ == .SEND_SUMMARY) = []) ∧
    (¬(c = true ∧ t = "AI") →
      (receive_result gs gf st result).sent =
        [⟨h, ⟨.SEND_SUMMARY,
          composeSummary st.purpose s (summaryCallContext st result raw)⟩⟩] ∧
      ((receive_result gs gf st result).sent.filter
          fun sm => sm.msg.type_ == .SEND_TASK) = []) := by
  constructor
  · rintro ⟨hc', ht'⟩
    subst hc'
    subst ht'
    simp only [select_worker_ai] at hw
    simp [receive_result, hgs, hc, ht, hm, select_worker_ai, hw]
  · intro hno
    simp only [summaryCallContext, List.append_assoc, List.cons_append,
      List.nil_append] at hgf ⊢
    cases c with
    | false => simp [receive_result, summarize, hgs, hc, hgf, hh]
    | true =>
      have htne : t ≠ "AI" := fun hEq => hno ⟨rfl, hEq⟩
      have hbeq : (t == "AI") = false := by simp [htne]
      simp [receive_result, summarize, hgs, hc, ht, hbeq, hgf, hh]

/-- Witness for C1 at a concrete input (a non-continuing decision). -/
theorem C1_result_dispatch_or_summary_witness :
    (false = true ∧ "HUMAN" = "AI" →
      (receive_result (fun _ => some ("raw", some ⟨some false, some "HUMAN", some "m", some [], some "n"⟩))
          (fun _ => some "S") ⟨[], [workerId], some humanId, some "g"⟩ "res").sent =
        [⟨workerId, ⟨.SEND_TASK, "m"⟩⟩] ∧
      ((receive_result (fun _ => some ("raw", some ⟨some false, some "HUMAN", some "m", some [], some "n"⟩))
          (fun _ => some "S") ⟨[], [workerId], some humanId, some "g"⟩ "res").sent.filter
          fun sm => sm.msg.type_ == .SEND_SUMMARY) = []) ∧
    (¬(false = true ∧ "HUMAN" = "AI") →
      (receive_result (fun _ => some ("raw", some ⟨some false, some "HUMAN", some "m", some [], some "n"⟩))
          (fun _ => some "S") ⟨[], [workerId], some humanId, some "g"⟩ "res").sent =
        [⟨humanId, ⟨.SEND_SUMMARY,
          composeSummary (⟨[], [workerId], some humanId, some "g"⟩ : ManagerState).purpose "S"
            (summaryCallContext ⟨[], [workerId], some humanId, some "g"⟩ "res" "raw")⟩⟩] ∧
      ((receive_result (fun _ => some ("raw", some ⟨some false, some "HUMAN", some "m", some [], some "n"⟩))
          (fun _ => some "S") ⟨[], [workerId], some humanId, some "g"⟩ "res").sent.filter
          fun sm => sm.msg.type_ == .SEND_TASK) = []) :=
  C1_result_dispatch_or_summary
    (fun _ => some ("raw", some ⟨some false, some "HUMAN", some "m", some [], some "n"⟩))
    (fun _ => some "S") ⟨[], [workerId], some humanId, some "g"⟩ "res" "raw" "m" "S"
    "HUMAN" false ⟨some false, some "HUMAN", some "m", some [], some "n"⟩
    workerId humanId rfl rfl rfl rfl rfl rfl rfl

/-- C10: the Manager's receive handler does not guard SEND_PURPOSE by
state: on any SEND_PURPOSE — also a second one mid-session — it
overwrites the recorded Human and goal with the new sender and text and
appends the fresh system and user turns onto the existing context (the
old turns are kept, the context is never reset); with a successful
decision it appends the assistant turn and dispatches another SEND_TASK
to the first configured worker. -/
theorem C10_purpose_unguarded (gs : StructuredGateway) (gf : FreeGateway)
    (st : ManagerState) (from_ : AgentId) (p raw m : String)
    (args : TalkToAIArguments) (w : AgentId) (tk : List String) (nt : String)
    (hgs : gs (purposeCallContext p) = some (raw, some args))
    (htk : args.tasks = some tk) (hnt : args.next_task = some nt)
    (hm : args.message = some m) (hw : select_worker_ai st = some w) :
    (∀ gs' : StructuredGateway,
      (managerReceiveMessage gs' gf st ⟨.SEND_PURPOSE, p⟩ from_).state.human = some from_ ∧
      (managerReceiveMessage gs' gf st ⟨.SEND_PURPOSE, p⟩ from_).state.purpose = some p ∧
      ∃ tail, (managerReceiveMessage gs' gf st ⟨.SEND_PURPOSE, p⟩ from_).state.chat_messages
          = st.chat_messages ++ tail) ∧
    ((managerReceiveMessage gs gf st ⟨.SEND_PURPOSE, p⟩ from_).state.chat_messages
        = (st.chat_messages ++ purposeCallContext p) ++ [⟨.assistant, raw⟩] ∧
      (managerReceiveMessage gs gf st ⟨.SEND_PURPOSE, p⟩ from_).sent =
        [⟨w, ⟨.SEND_TASK, m⟩⟩] ∧
      (managerReceiveMessage gs gf st ⟨.SEND_PURPOSE, p⟩ from_).err = none) := by
  constructor
  · intro gs'
    exact receive_purpose_state gs' st from_ p
  · simp only [select_worker_ai] at hw
    simp [managerReceiveMessage, receive_purpose, hgs, htk, hnt, hm,
      select_worker_ai, hw]

/-- Witness for C10 at a concrete input: a second SEND_PURPOSE arriving
on an already-populated state. -/
theorem C10_purpose_unguarded_witness :
    (∀ gs' : StructuredGateway,
      (managerReceiveMessage gs' (fun _ => some "S")
          ⟨[⟨.system, "old"⟩], [workerId], some 7, some "old goal"⟩
          ⟨.SEND_PURPOSE, "new goal"⟩ humanId).state.human = some humanId ∧
      (managerReceiveMessage gs' (fun _ => some "S")
          ⟨[⟨.system, "old"⟩], [workerId], some 7, some "old goal"⟩
          ⟨.SEND_PURPOSE, "new goal"⟩ humanId).state.purpose = some "new goal" ∧
      ∃ tail, (managerReceiveMessage gs' (fun _ => some "S")
          ⟨[⟨.system, "old"⟩], [workerId], some 7, some "old goal"⟩
          ⟨.SEND_PURPOSE, "new goal"⟩ humanId).state.chat_messages
        = (⟨[⟨.system, "old"⟩], [workerId], some 7, some "old goal"⟩ : ManagerState).chat_messages ++ tail) ∧
    ((managerReceiveMessage (fun _ => some ("raw", some ⟨some true, some "AI", some "m", some [], some "n"⟩))
        (fun _ => some "S") ⟨[⟨.system, "old"⟩], [workerId], some 7, some "old goal"⟩
        ⟨.SEND_PURPOSE, "new goal"⟩ humanId).state.chat_messages
      = ((⟨[⟨.system, "old"⟩], [workerId], some 7, some "old goal"⟩ : ManagerState).chat_messages
          ++ purposeCallContext "new goal") ++ [⟨.assistant, "raw"⟩] ∧
     (managerReceiveMessage (fun _ => some ("raw", some ⟨some true, some "AI", some "m", some [], some "n"⟩))
        (fun _ => some "S") ⟨[⟨.system, "old"⟩], [workerId], some 7, some "old goal"⟩
        ⟨.SEND_PURPOSE, "new goal"⟩ humanId).sent = [⟨workerId, ⟨.SEND_TASK, "m"⟩⟩] ∧
     (managerReceiveMessage (fun _ => some ("raw", some ⟨some true, some "AI", some "m", some [], some "n"⟩))
        (fun _ => some "S") ⟨[⟨.system, "old"⟩], [workerId], some 7, some "old goal"⟩
        ⟨.SEND_PURPOSE, "new goal"⟩ humanId).err = none) :=
  C10_purpose_unguarded
    (fun _ => some ("raw", some ⟨some true, some "AI", some "m", some [], some "n"⟩))
    (fun _ => some "S") ⟨[⟨.system, "old"⟩], [workerId], some 7, some "old goal"⟩
    humanId "new goal" "raw" "m" ⟨some true, some "AI", some "m", some [], some "n"⟩
    workerId [] "n" rfl rfl rfl rfl rfl

/-- C3 counterexample: the claim says every role raises a fatal
UnknownMessageType on an envelope type it does not handle, but delivering
SEND_SUMMARY to a Worker and SEND_TASK to the Manager is silently
dropped: no error, no state change, no message sent. -/
theorem C3_counterexample :
    workerReceiveMessage (fun _ => none) ⟨[]⟩ ⟨.SEND_SUMMARY, "report"⟩ humanId =
      ⟨⟨[]⟩, [], [], none⟩ ∧
    managerReceiveMessage (fun _ => none) (fun _ => none) managerInit
        ⟨.SEND_TASK, "t"⟩ humanId = ⟨managerInit, [], [], none⟩ := by
  exact ⟨rfl, rfl⟩

/-- C3 (amended): only the Human raises a fatal UnknownMessageType on an
envelope type it does not handle; the Manager and the Worker silently
ignore such envelopes (no error, no state change, no sends). -/
theorem C3_unhandled_types (mh mm mw : Message) (from_ : AgentId)
    (gs : StructuredGateway) (gf gw : FreeGateway)
    (mst : ManagerState) (wst : WorkerState)
    (h1 : mh.type_ ≠ .SEND_SUMMARY)
    (h2 : mm.type_ ≠ .SEND_PURPOSE) (h3 : mm.type_ ≠ .SEND_RESULT)
    (h4 : mw.type_ ≠ .SEND_TASK) :
    humanReceiveMessage mh = .error (.UnknownMessageType mh.type_) ∧
    managerReceiveMessage gs gf mst mm from_ = ⟨mst, [], [], none⟩ ∧
    workerReceiveMessage gw wst mw from_ = ⟨wst, [], [], none⟩ := by
  obtain ⟨th, _⟩ := mh
  obtain ⟨tm, _⟩ := mm
  obtain ⟨tw, _⟩ := mw
  cases th <;> cases tm <;> cases tw <;>
    simp_all [humanReceiveMessage, managerReceiveMessage, workerReceiveMessage]

/-- Witness for C3 (amended) at concrete inputs. -/
theorem C3_unhandled_types_witness :
    humanReceiveMessage ⟨.SEND_TASK, "x"⟩ = .error (.UnknownMessageType .SEND_TASK) ∧
    managerReceiveMessage (fun _ => none) (fun _ => none) managerInit
        ⟨.SEND_SUMMARY, "y"⟩ humanId = ⟨managerInit, [], [], none⟩ ∧
    workerReceiveMessage (fun _ => none) ⟨[]⟩ ⟨.SEND_PURPOSE, "z"⟩ humanId =
      ⟨⟨[]⟩, [], [], none⟩ :=
  C3_unhandled_types ⟨.SEND_TASK, "x"⟩ ⟨.SEND_SUMMARY, "y"⟩ ⟨.SEND_PURPOSE, "z"⟩
    humanId (fun _ => none) (fun _ => none) (fun _ => none) managerInit ⟨[]⟩
    (by decide) (by decide) (by decide) (by decide)

/-- C4 counterexample: the claim says a successful gateway response with
empty text also aborts with EmptyResponseError, but the code only tests
`content is None`: a Worker whose gateway returns the empty string
raises nothing and forwards the empty SEND_RESULT. -/
theorem C4_counterexample :
    (receive_task (fun _ => some "") ⟨[]⟩ managerId "t").err = none ∧
    (receive_task (fun _ => some "") ⟨[]⟩ managerId "t").sent =
      [⟨managerId, ⟨.SEND_RESULT, ""⟩⟩] := by
  exact ⟨rfl, rfl⟩

/-- C4 (amended): at each of the four gateway call sites (Manager
structured purpose call, Manager structured evaluation call, Manager
free-text summary call, Worker task call), the session aborts with a
fatal EmptyResponseError exactly when `response_message.content` is
`None`; the gateway is called exactly once (no retry) and nothing is
sent.  A successful response — even one whose text is empty — is never
turned into an EmptyResponseError. -/
theorem C4_none_content_only (gs1 gs2 gs3 : StructuredGateway)
    (gf1 gf2 : FreeGateway) (gw1 gw2 : FreeGateway)
    (mst : ManagerState) (wst : WorkerState) (from_ : AgentId)
    (p result task s raw : String) (args : TalkToAIArguments)
    (hw1 : gw1 (taskCallContext task) = none)
    (hw2 : gw2 (taskCallContext task) = some s)
    (hp1 : gs1 (purposeCallContext p) = none)
    (hp2 : gs2 (purposeCallContext p) = some (raw, some args))
    (hr1 : gs3 (resultCallContext mst result) = none)
    (hr2 : gs2 (resultCallContext mst result) = some (raw, some args))
    (hcont : args.continue_ = some false)
    (hf1 : gf1 (summaryCallContext mst result raw) = none)
    (hf2 : gf2 (summaryCallContext mst result raw) = some s) :
    receive_task gw1 wst from_ task =
      ⟨wst, [taskCallContext task], [], some .EmptyResponseError⟩ ∧
    (receive_task gw2 wst from_ task).err = none ∧
    ((receive_purpose gs1 mst from_ p).err = some .EmptyResponseError ∧
      (receive_purpose gs1 mst from_ p).calls = [purposeCallContext p] ∧
      (receive_purpose gs1 mst from_ p).sent = []) ∧
    (receive_purpose gs2 mst from_ p).err ≠ some .EmptyResponseError ∧
    ((receive_result gs3 gf1 mst result).err = some .EmptyResponseError ∧
      (receive_result gs3 gf1 mst result).calls = [resultCallContext mst result] ∧
      (receive_result gs3 gf1 mst result).sent = []) ∧
    ((receive_result gs2 gf1 mst result).err = some .EmptyResponseError ∧
      (receive_result gs2 gf1 mst result).sent = []) ∧
    (receive_result gs2 gf2 mst result).err ≠ some .EmptyResponseError := by
  obtain ⟨c, t, m, tk, nt⟩ := args
  have hc : c = some false := hcont
  subst hc
  refine ⟨?_, ?_, ?_, ?_, ?_, ?_, ?_⟩
  · simp [receive_task, hw1]
  · simp [receive_task, hw2]
  · simp [receive_purpose, hp1]
  · simp only [receive_purpose, hp2]
    repeat' split
    all_goals simp
  · simp [receive_result, hr1]
  · simp only [summaryCallContext, List.append_assoc,
      List.cons_append, List.nil_append] at hf1
    simp [receive_result, summarize, hr2, hf1]
  · simp only [summaryCallContext, List.append_assoc,
      List.cons_append, List.nil_append] at hf2
    cases hh : mst.human <;> simp [receive_result, summarize, hr2, hf2, hh]

/-- Witness for C4 (amended) at concrete inputs. -/
theorem C4_none_content_only_witness :
    receive_task (fun _ => none) ⟨[]⟩ humanId "t" =
      ⟨⟨[]⟩, [taskCallContext "t"], [], some .EmptyResponseError⟩ ∧
    (receive_task (fun _ => some "") ⟨[]⟩ humanId "t").err = none ∧
    ((receive_purpose (fun _ => none) managerInit humanId "g").err = some .EmptyResponseError ∧
      (receive_purpose (fun _ => none) managerInit humanId "g").calls = [purposeCallContext "g"] ∧
      (receive_purpose (fun _ => none) managerInit humanId "g").sent = []) ∧
    (receive_purpose (fun _ => some ("r", some ⟨some false, some "AI", some "m", some [], some "n"⟩))
        managerInit humanId "g").err ≠ some .EmptyResponseError ∧
    ((receive_result (fun _ => none) (fun _ => none) managerInit "res").err = some .EmptyResponseError ∧
      (receive_result (fun _ => none) (fun _ => none) managerInit "res").calls =
        [resultCallContext managerInit "res"] ∧
      (receive_result (fun _ => none) (fun _ => none) managerInit "res").sent = []) ∧
    ((receive_result (fun _ => some ("r", some ⟨some false, some "AI", some "m", some [], some "n"⟩))
        (fun _ => none) managerInit "res").err = some .EmptyResponseError ∧
      (receive_result (fun _ => some ("r", some ⟨some false, some "AI", some "m", some [], some "n"⟩))
        (fun _ => none) managerInit "res").sent = []) ∧
    (receive_result (fun _ => some ("r", some ⟨some false, some "AI", some "m", some [], some "n"⟩))
        (fun _ => some "") managerInit "res").err ≠ some .EmptyResponseError :=
  C4_none_content_only (fun _ => none)
    (fun _ => some ("r", some ⟨some false, some "AI", some "m", some [], some "n"⟩))
    (fun _ => none) (fun _ => none) (fun _ => some "") (fun _ => none) (fun _ => some "")
    managerInit ⟨[]⟩ humanId "g" "res" "t" "" "r"
    ⟨some false, some "AI", some "m", some [], some "n"⟩
    rfl rfl rfl rfl rfl rfl rfl rfl rfl

/-- C5 counterexample: the claim says each evaluation cycle on
SEND_RESULT adds exactly two turns, but a summarizing cycle (here:
`continue_ = false`) adds three — the result user turn, the decision
assistant turn, and the summary-request user turn. -/
theorem C5_counterexample :
    (receive_result
        (fun _ => some ("raw", some ⟨some false, some "HUMAN", some "m", some [], some "n"⟩))
        (fun _ => some "S") ⟨[], [workerId], some humanId, some "g"⟩
        "res").state.chat_messages.length = 3 ∧
    (receive_result
        (fun _ => some ("raw", some ⟨some false, some "HUMAN", some "m", some [], some "n"⟩))
        (fun _ => some "S") ⟨[], [workerId], some humanId, some "g"⟩
        "res").state.chat_messages.length ≠
      (⟨[], [workerId], some humanId, some "g"⟩ : ManagerState).chat_messages.length + 2 := by
  exact ⟨rfl, by decide⟩

/-- C5 (amended): the Manager's context is append-only on every receive
path (errors included), so its length is non-decreasing across a
session; a continuing evaluation cycle on SEND_RESULT adds exactly two
turns (result user turn, decision assistant turn), while the final
summarizing cycle adds three (those two plus the summary-request user
turn — the summary completion itself is never appended). -/
theorem C5_context_growth (gs gs1 gs2 : StructuredGateway) (gf : FreeGateway)
    (st : ManagerState) (msg : Message) (from_ : AgentId)
    (result raw1 raw2 m : String) (args1 args2 : TalkToAIArguments) (w : AgentId)
    (h1 : gs1 (resultCallContext st result) = some (raw1, some args1))
    (hc1 : args1.continue_ = some true) (ht1 : args1.«to» = some "AI")
    (hm1 : args1.message = some m) (hw : select_worker_ai st = some w)
    (h2 : gs2 (resultCallContext st result) = some (raw2, some args2))
    (hc2 : args2.continue_ = some false) :
    (∃ tail, (managerReceiveMessage gs gf st msg from_).state.chat_messages
        = st.chat_messages ++ tail) ∧
    (receive_result gs1 gf st result).state.chat_messages.length
        = st.chat_messages.length + 2 ∧
    (receive_result gs2 gf st result).state.chat_messages.length
        = st.chat_messages.length + 3 := by
  obtain ⟨ty, content⟩ := msg
  refine ⟨?_, ?_, ?_⟩
  · cases ty with
    | SEND_PURPOSE => exact (receive_purpose_state gs st from_ content).2.2
    | SEND_RESULT => exact receive_result_extends gs gf st content
    | SEND_TASK => exact ⟨[], by simp [managerReceiveMessage]⟩
    | SEND_SUMMARY => exact ⟨[], by simp [managerReceiveMessage]⟩
  · simp only [select_worker_ai] at hw
    simp [receive_result, h1, hc1, ht1, hm1, select_worker_ai, hw]
    simp [resultCallContext]
  · simp [receive_result, summarize, h2, hc2]
    repeat' split
    all_goals simp only [resultCallContext, List.length_append, List.length_cons,
      List.length_nil]

/-- Witness for C5 (amended) at concrete inputs. -/
theorem C5_context_growth_witness :
    (∃ tail, (managerReceiveMessage (fun _ => none) (fun _ => some "S")
        ⟨[], [workerId], some humanId, some "g"⟩ ⟨.SEND_RESULT, "res"⟩
        workerId).state.chat_messages
      = (⟨[], [workerId], some humanId, some "g"⟩ : ManagerState).chat_messages ++ tail) ∧
    (receive_result
        (fun _ => some ("r1", some ⟨some true, some "AI", some "m", some [], some "n"⟩))
        (fun _ => some "S") ⟨[], [workerId], some humanId, some "g"⟩
        "res").state.chat_messages.length
      = (⟨[], [workerId], some humanId, some "g"⟩ : ManagerState).chat_messages.length + 2 ∧
    (receive_result
        (fun _ => some ("r2", some ⟨some false, some "HUMAN", some "m", some [], some "n"⟩))
        (fun _ => some "S") ⟨[], [workerId], some humanId, some "g"⟩
        "res").state.chat_messages.length
      = (⟨[], [workerId], some humanId, some "g"⟩ : ManagerState).chat_messages.length + 3 :=
  C5_context_growth (fun _ => none)
    (fun _ => some ("r1", some ⟨some true, some "AI", some "m", some [], some "n"⟩))
    (fun _ => some ("r2", some ⟨some false, some "HUMAN", some "m", some [], some "n"⟩))
    (fun _ => some "S") ⟨[], [workerId], some humanId, some "g"⟩ ⟨.SEND_RESULT, "res"⟩
    workerId "res" "r1" "r2" "m"
    ⟨some true, some "AI", some "m", some [], some "n"⟩
    ⟨some false, some "HUMAN", some "m", some [], some "n"⟩
    workerId rfl rfl rfl rfl rfl rfl rfl

/-- C6 counterexample: the claim says a structured response missing
`payload.to` always aborts with MalformedDecisionError and no
SEND_SUMMARY, but with `continue_ = false` the `and` short-circuits:
`payload["to"]` is never read, no error is raised, and a SEND_SUMMARY is
sent. -/
theorem C6_counterexample :
    (receive_result (fun _ => some ("raw", some ⟨some false, none, some "m", some [], some "n"⟩))
        (fun _ => some "S") ⟨[], [workerId], some humanId, some "g"⟩ "res").err = none ∧
    ((receive_result (fun _ => some ("raw", some ⟨some false, none, some "m", some [], some "n"⟩))
        (fun _ => some "S") ⟨[], [workerId], some humanId, some "g"⟩ "res").sent.map
      fun sm => sm.msg.type_) = [.SEND_SUMMARY] := by
  exact ⟨rfl, rfl⟩

/-- C6 (amended): a structured response missing `payload.to` aborts the
session with MalformedDecisionError — and no SEND_SUMMARY is sent — only
when `metadata.continue_` is `true` (or itself missing); when
`continue_` is `false` the `to` field is never read and the summarizing
path runs normally, sending exactly one SEND_SUMMARY. -/
theorem C6_missing_to_gated (gs1 gs2 gs3 : StructuredGateway) (gf : FreeGateway)
    (st : ManagerState) (result raw s : String) (h : AgentId)
    (args1 args2 args3 : TalkToAIArguments)
    (h1 : gs1 (resultCallContext st result) = some (raw, some args1))
    (hc1 : args1.continue_ = some true) (ht1 : args1.«to» = none)
    (h2 : gs2 (resultCallContext st result) = some (raw, some args2))
    (hc2 : args2.continue_ = none)
    (h3 : gs3 (resultCallContext st result) = some (raw, some args3))
    (hc3 : args3.continue_ = some false) (ht3 : args3.«to» = none)
    (hh : st.human = some h)
    (hgf : gf (summaryCallContext st result raw) = some s) :
    ((receive_result gs1 gf st result).err = some .MalformedDecisionError ∧
      (receive_result gs1 gf st result).sent = []) ∧
    ((receive_result gs2 gf st result).err = some .MalformedDecisionError ∧
      (receive_result gs2 gf st result).sent = []) ∧
    ((receive_result gs3 gf st result).err = none ∧
      ((receive_result gs3 gf st result).sent.map fun sm => sm.msg.type_) =
        [.SEND_SUMMARY] ∧
      ((receive_result gs3 gf st result).sent.map fun sm => sm.«to») = [h]) := by
  refine ⟨?_, ?_, ?_⟩
  · simp [receive_result, h1, hc1, ht1]
  · simp [receive_result, h2, hc2]
  · simp only [summaryCallContext, List.append_assoc,
      List.cons_append, List.nil_append] at hgf
    simp [receive_result, summarize, h3, hc3, hgf, hh]

/-- Witness for C6 (amended) at concrete inputs. -/
theorem C6_missing_to_gated_witness :
    ((receive_result (fun _ => some ("raw", some ⟨some true, none, some "m", some [], some "n"⟩))
        (fun _ => some "S") ⟨[], [workerId], some humanId, some "g"⟩ "res").err =
      some .MalformedDecisionError ∧
      (receive_result (fun _ => some ("raw", some ⟨some true, none, some "m", some [], some "n"⟩))
        (fun _ => some "S") ⟨[], [workerId], some humanId, some "g"⟩ "res").sent = []) ∧
    ((receive_result (fun _ => some ("raw", some ⟨none, none, some "m", some [], some "n"⟩))
        (fun _ => some "S") ⟨[], [workerId], some humanId, some "g"⟩ "res").err =
      some .MalformedDecisionError ∧
      (receive_result (fun _ => some ("raw", some ⟨none, none, some "m", some [], some "n"⟩))
        (fun _ => some "S") ⟨[], [workerId], some humanId, some "g"⟩ "res").sent = []) ∧
    ((receive_result (fun _ => some ("raw", some ⟨some false, none, some "mm", some [], some "n"⟩))
        (fun _ => some "S") ⟨[], [workerId], some humanId, some "g"⟩ "res").err = none ∧
      ((receive_result (fun _ => some ("raw", some ⟨some false, none, some "mm", some [], some "n"⟩))
        (fun _ => some "S") ⟨[], [workerId], some humanId, some "g"⟩ "res").sent.map
        fun sm => sm.msg.type_) = [.SEND_SUMMARY] ∧
      ((receive_result (fun _ => some ("raw", some ⟨some false, none, some "mm", some [], some "n"⟩))
        (fun _ => some "S") ⟨[], [workerId], some humanId, some "g"⟩ "res").sent.map
        fun sm => sm.«to») = [humanId]) :=
  C6_missing_to_gated
    (fun _ => some ("raw", some ⟨some true, none, some "m", some [], some "n"⟩))
    (fun _ => some ("raw", some ⟨none, none, some "m", some [], some "n"⟩))
    (fun _ => some ("raw", some ⟨some false, none, some "mm", some [], some "n"⟩))
    (fun _ => some "S") ⟨[], [workerId], some humanId, some "g"⟩ "res" "raw" "S" humanId
    ⟨some true, none, some "m", some [], some "n"⟩
    ⟨none, none, some "m", some [], some "n"⟩
    ⟨some false, none, some "mm", some [], some "n"⟩
    rfl rfl rfl rfl rfl rfl rfl rfl rfl rfl

/-- C7 counterexample: the claim says a SEND_RESULT arriving with no
recorded Human always aborts with NoRecipientError, but when the
decision continues to the AI the handler never consults `self.human`: it
dispatches the next SEND_TASK with no error. -/
theorem C7_counterexample :
    (receive_result (fun _ => some ("raw", some ⟨some true, some "AI", some "task", some [], some "n"⟩))
        (fun _ => some "S") ⟨[], [workerId], none, none⟩ "res").err = none ∧
    (receive_result (fun _ => some ("raw", some ⟨some true, some "AI", some "task", some [], some "n"⟩))
        (fun _ => some "S") ⟨[], [workerId], none, none⟩ "res").sent =
      [⟨workerId, ⟨.SEND_TASK, "task"⟩⟩] := by
  exact ⟨rfl, rfl⟩

/-- C7 (amended): with no recorded Human, a SEND_RESULT aborts with
NoRecipientError only on the summarizing path, and only after the
summary completion returned content (an empty gateway response on that
path raises EmptyResponseError first); a decision that continues to the
AI dispatches a SEND_TASK without ever consulting `self.human`. -/
theorem C7_no_recipient_scope (gs1 gs2 : StructuredGateway) (gf1 gf2 : FreeGateway)
    (st : ManagerState) (result raw1 raw2 m s : String)
    (args1 args2 : TalkToAIArguments) (w : AgentId)
    (hhum : st.human = none)
    (h1 : gs1 (resultCallContext st result) = some (raw1, some args1))
    (hc1 : args1.continue_ = some true) (ht1 : args1.«to» = some "AI")
    (hm1 : args1.message = some m) (hw : select_worker_ai st = some w)
    (h2 : gs2 (resultCallContext st result) = some (raw2, some args2))
    (hc2 : args2.continue_ = some false)
    (hf1 : gf1 (summaryCallContext st result raw2) = some s)
    (hf2 : gf2 (summaryCallContext st result raw2) = none) :
    ((receive_result gs1 gf1 st result).err = none ∧
      (receive_result gs1 gf1 st result).sent = [⟨w, ⟨.SEND_TASK, m⟩⟩]) ∧
    ((receive_result gs2 gf1 st result).err = some .NoRecipientError ∧
      (receive_result gs2 gf1 st result).sent = []) ∧
    (receive_result gs2 gf2 st result).err = some .EmptyResponseError := by
  refine ⟨?_, ?_, ?_⟩
  · simp only [select_worker_ai] at hw
    simp [receive_result, h1, hc1, ht1, hm1, select_worker_ai, hw]
  · simp only [summaryCallContext, List.append_assoc,
      List.cons_append, List.nil_append] at hf1
    simp [receive_result, summarize, h2, hc2, hf1, hhum]
  · simp only [summaryCallContext, List.append_assoc,
      List.cons_append, List.nil_append] at hf2
    simp [receive_result, summarize, h2, hc2, hf2]

/-- Witness for C7 (amended) at concrete inputs. -/
theorem C7_no_recipient_scope_witness :
    ((receive_result (fun _ => some ("r1", some ⟨some true, some "AI", some "m", some [], some "n"⟩))
        (fun _ => some "S") ⟨[], [workerId], none, none⟩ "res").err = none ∧
      (receive_result (fun _ => some ("r1", some ⟨some true, some "AI", some "m", some [], some "n"⟩))
        (fun _ => some "S") ⟨[], [workerId], none, none⟩ "res").sent =
        [⟨workerId, ⟨.SEND_TASK, "m"⟩⟩]) ∧
    ((receive_result (fun _ => some ("r2", some ⟨some false, some "HUMAN", some "m", some [], some "n"⟩))
        (fun _ => some "S") ⟨[], [workerId], none, none⟩ "res").err =
      some .NoRecipientError ∧
      (receive_result (fun _ => some ("r2", some ⟨some false, some "HUMAN", some "m", some [], some "n"⟩))
        (fun _ => some "S") ⟨[], [workerId], none, none⟩ "res").sent = []) ∧
    (receive_result (fun _ => some ("r2", some ⟨some false, some "HUMAN", some "m", some [], some "n"⟩))
        (fun _ => none) ⟨[], [workerId], none, none⟩ "res").err =
      some .EmptyResponseError :=
  C7_no_recipient_scope
    (fun _ => some ("r1", some ⟨some true, some "AI", some "m", some [], some "n"⟩))
    (fun _ => some ("r2", some ⟨some false, some "HUMAN", some "m", some [], some "n"⟩))
    (fun _ => some "S") (fun _ => none) ⟨[], [workerId], none, none⟩
    "res" "r1" "r2" "m" "S"
    ⟨some true, some "AI", some "m", some [], some "n"⟩
    ⟨some false, some "HUMAN", some "m", some [], some "n"⟩
    workerId rfl rfl rfl rfl rfl rfl rfl rfl rfl rfl

/-- C8: for every SEND_TASK the Worker receives, it invokes the gateway
on the fresh single-turn context `[user: task]` only (no prior turns are
replayed), appends exactly the gateway's response to its private context,
and sends exactly one SEND_RESULT carrying the completion text back to
the sender that issued the task. -/
theorem C8_worker_fresh_context (gw : FreeGateway) (st : WorkerState)
    (from_ : AgentId) (task completion : String)
    (hgw : gw (taskCallContext task) = some completion) :
    workerReceiveMessage gw st ⟨.SEND_TASK, task⟩ from_ =
      ⟨⟨st.chat_messages ++ [⟨.assistant, completion⟩]⟩,
        [taskCallContext task],
        [⟨from_, ⟨.SEND_RESULT, completion⟩⟩], none⟩ := by
  simp [workerReceiveMessage, receive_task, hgw]

/-- Witness for C8 at a concrete input. -/
theorem C8_worker_fresh_context_witness :
    workerReceiveMessage (fun _ => some "done") ⟨[⟨.assistant, "old"⟩]⟩
        ⟨.SEND_TASK, "write a haiku"⟩ 1 =
      ⟨⟨[⟨.assistant, "old"⟩, ⟨.assistant, "done"⟩]⟩,
        [taskCallContext "write a haiku"],
        [⟨1, ⟨.SEND_RESULT, "done"⟩⟩], none⟩ :=
  C8_worker_fresh_context (fun _ => some "done") ⟨[⟨.assistant, "old"⟩]⟩ 1
    "write a haiku" "done" rfl

/-- C9: when the Manager transitions to summarizing, the SEND_SUMMARY
content sent to the recorded Human is exactly the goal section, the
gateway's synthesized summary section, and the verbatim transcript
section enumerating every turn of the accumulated context as a `[role]`
labeled block, in that order. -/
theorem C9_summary_three_sections (gs : StructuredGateway) (gf : FreeGateway)
    (st : ManagerState) (result raw s p : String) (h : AgentId)
    (args : TalkToAIArguments)
    (hp : st.purpose = some p) (hh : st.human = some h)
    (hgs : gs (resultCallContext st result) = some (raw, some args))
    (hcont : args.continue_ = some false)
    (hgf : gf (summaryCallContext st result raw) = some s) :
    (receive_result gs gf st result).sent =
      [⟨h, ⟨.SEND_SUMMARY,
        goalSectionSpec p ++ summarySectionSpec s
          ++ transcriptSectionSpec (summaryCallContext st result raw)⟩⟩] := by
  rw [← composeSummary_eq_sections]
  simp only [summaryCallContext, List.append_assoc, List.cons_append,
    List.nil_append] at hgf
  rw [hp] at hgf
  simp only [receive_result, summarize, summaryCallContext]
  rw [hgs]
  simp only [hcont]
  rw [hp]
  simp [hgf, hh]

/-- Witness for C9 at a concrete input. -/
theorem C9_summary_three_sections_witness :
    (receive_result (fun _ => some ("raw", some ⟨some false, some "HUMAN", some "m", some [], some "n"⟩))
        (fun _ => some "Summary text") ⟨[], [workerId], some humanId, some "goal"⟩ "res").sent =
      [⟨humanId, ⟨.SEND_SUMMARY,
        goalSectionSpec "goal" ++ summarySectionSpec "Summary text"
          ++ transcriptSectionSpec (summaryCallContext ⟨[], [workerId], some humanId, some "goal"⟩ "res" "raw")⟩⟩] :=
  C9_summary_three_sections _ _ ⟨[], [workerId], some humanId, some "goal"⟩ "res" "raw"
    "Summary text" "goal" humanId ⟨some false, some "HUMAN", some "m", some [], some "n"⟩
    rfl rfl rfl rfl rfl

end ConvAI
